import Mathlib

/-!
# Verification of the Claude client subsystem

Shallow embedding of the Claude AI-assistant client subsystem of the
`zaelot-developer-studio` repository, together with proofs settling the
testable properties of its specification.

The embedded components and their sources:

* `ClaudeMainService` — the main-process executor
  (`claudeMainService.ts`, in `DISTRIBUTION.md`'s trailing TS section):
  request-body assembly, response handling, streaming decode.
* `ClaudeApiClient` — the browser-context executor (`claudeApiClient.ts`,
  `src/unnamed/part_001`): configuration holder, request-body assembly
  (non-streaming forced), response validation, token estimation.
* `ClaudeChannel` — the cross-process bridge (`claudeChannel.ts`,
  `src/unnamed/part_000`, two divergent variants).
* `ClaudeLanguageModelProvider._convertMessagesToClaude` — the provider
  adapter's message conversion (`src/unnamed/part_002`), with base64
  encoding of image bytes.

JavaScript dynamic values (`any`) are embedded as the inductive `JsValue`;
JS truthiness, `typeof`, `||` and `??` are modelled explicitly.  Numeric
wire parameters are `Nat` (max_tokens) and `ℚ` (temperature — only selected,
never computed with, so no floating-point semantics are involved).
-/

/-- Message role, the `'system' | 'user' | 'assistant'` union of
`IClaudeMessage.role`. -/
inductive ClaudeRole where
  | system
  | user
  | assistant
deriving DecidableEq, Repr

/-- The `IClaudeMessage` interface as declared in `claudeMainService.ts`
(DISTRIBUTION.md lines 263-266): role plus plain-string content. -/
structure MainMessage where
  role : ClaudeRole
  content : String
deriving DecidableEq, Repr

/-- The `IClaudeConfiguration` interface as declared in
`claudeMainService.ts` (DISTRIBUTION.md lines 255-261): `apiKey` required, the rest optional.
Temperature is carried as `ℚ`; it is only ever selected, never computed. -/
structure MainConfig where
  apiKey : String
  baseUrl : Option String
  model : Option String
  maxTokens : Option Nat
  temperature : Option ℚ
deriving DecidableEq, Repr

/-- The optional `options` bag accepted by `sendMessage` /
`sendStreamingMessage`: `{maxTokens?, temperature?, tools?, toolChoice?}`.
Tools and tool choice are passed through unmodified, so they are kept
abstract as strings here (their content is never inspected). -/
structure SendOptions where
  maxTokens : Option Nat
  temperature : Option ℚ
  tools : Option (List String)
  toolChoice : Option String
deriving DecidableEq, Repr

/-- The empty options bag, the `= {}` default parameter. -/
def SendOptions.none : SendOptions :=
  { maxTokens := Option.none, temperature := Option.none,
    tools := Option.none, toolChoice := Option.none }

/-- JavaScript `a || b` on an optional numeric field: `0` (and absence) is
falsy and falls through to the right operand. -/
def jsOrNat : Option Nat → Nat → Nat
  | some v, d => if v = 0 then d else v
  | none, d => d

/-- JavaScript `a ?? b` on an optional numeric field: only absence
(null/undefined) falls through; an explicit `0` is kept. -/
def jsCoalesceQ : Option ℚ → ℚ → ℚ
  | some v, _ => v
  | none, d => d

/-- JavaScript `s || d` on an optional string field: the empty string is
falsy and falls through. -/
def jsOrStr : Option String → String → String
  | some s, d => if s = "" then d else s
  | none, d => d

/-- The wire request body assembled by `ClaudeMainService.sendMessage` /
`sendStreamingMessage` (and, with the model passed as an argument, by
`ClaudeApiClient.sendMessage`). -/
structure RequestBody where
  model : String
  max_tokens : Nat
  temperature : ℚ
  messages : List MainMessage
  system : Option String
  stream : Bool
  tools : Option (List String)
  tool_choice : Option String
deriving DecidableEq, Repr

namespace ClaudeMainService

/-- The `requestBody` object literal of `ClaudeMainService.sendMessage`
(DISTRIBUTION.md lines 357-366):

* `model: config.model || 'claude-3-5-sonnet-20241220'`
* `max_tokens: options.maxTokens || config.maxTokens || 4096`
* `temperature: options.temperature ?? config.temperature ?? 0.7`
* `messages: messages.filter(m => m.role !== 'system')`
* `system: messages.find(m => m.role === 'system')?.content`
* `stream: false`
* `...(options.tools && { tools: options.tools })`
* `...(options.toolChoice && { tool_choice: options.toolChoice })` -/
def sendMessageBody (config : MainConfig) (messages : List MainMessage)
    (options : SendOptions) : RequestBody :=
  { model := jsOrStr config.model "claude-3-5-sonnet-20241220"
    max_tokens := jsOrNat options.maxTokens (jsOrNat config.maxTokens 4096)
    temperature := jsCoalesceQ options.temperature
      (jsCoalesceQ config.temperature (7/10))
    messages := messages.filter (fun m => m.role ≠ ClaudeRole.system)
    system := (messages.find? (fun m => m.role = ClaudeRole.system)).map
      (fun m => m.content)
    stream := false
    tools := options.tools
    tool_choice := options.toolChoice }

/-- The `requestBody` object literal of
`ClaudeMainService.sendStreamingMessage` (DISTRIBUTION.md lines 404-413);
identical to `sendMessageBody` except `stream: true`. -/
def sendStreamingMessageBody (config : MainConfig)
    (messages : List MainMessage) (options : SendOptions) : RequestBody :=
  { model := jsOrStr config.model "claude-3-5-sonnet-20241220"
    max_tokens := jsOrNat options.maxTokens (jsOrNat config.maxTokens 4096)
    temperature := jsCoalesceQ options.temperature
      (jsCoalesceQ config.temperature (7/10))
    messages := messages.filter (fun m => m.role ≠ ClaudeRole.system)
    system := (messages.find? (fun m => m.role = ClaudeRole.system)).map
      (fun m => m.content)
    stream := true
    tools := options.tools
    tool_choice := options.toolChoice }

/-- Model of `ClaudeMainService.sendMessage` up to the transport invocation
(DISTRIBUTION.md lines 343-371): `if (!config.apiKey) throw new
Error('API key is required')`, then the request body is assembled and
handed to `_makeRequest`.  An `.ok` result is the wire request that
reaches the network; `.error` means the call failed before any network
request was issued. -/
def sendMessageWire (config : MainConfig) (messages : List MainMessage)
    (options : SendOptions) : Except String RequestBody :=
  if config.apiKey = "" then .error "API key is required"
  else .ok (sendMessageBody config messages options)

end ClaudeMainService

/-! ## JavaScript dynamic values -/

/-- A JavaScript dynamic (`any`) value, as handled by the untyped parts of
the client: `JSON.parse` results, channel argument payloads.  Numbers are
carried as `Int` (the values inspected by the code — token counts, array
indices — are integral); `func` stands for any function value. -/
inductive JsValue where
  | undefined
  | jsNull
  | bool (b : Bool)
  | num (n : Int)
  | str (s : String)
  | arr (elems : List JsValue)
  | obj (fields : List (String × JsValue))
  | func

/-- JavaScript property access `v.k` (and `v[k]`): on an object, the first
field with the given name, else `undefined`; on primitives, `undefined`.
(On `null`/`undefined` JS would throw; every access in the embedded code
is guarded by a truthiness check, so the total model is faithful there.) -/
def jsGet : JsValue → String → JsValue
  | .obj fields, k =>
    match fields.find? (fun f => f.1 = k) with
    | some f => f.2
    | none => .undefined
  | _, _ => .undefined

/-- JavaScript truthiness. -/
def jsTruthy : JsValue → Bool
  | .undefined => false
  | .jsNull => false
  | .bool b => b
  | .num n => n ≠ 0
  | .str s => s ≠ ""
  | .arr _ => true
  | .obj _ => true
  | .func => true

/-- JavaScript `typeof`. -/
def jsTypeof : JsValue → String
  | .undefined => "undefined"
  | .jsNull => "object"
  | .bool _ => "boolean"
  | .num _ => "number"
  | .str _ => "string"
  | .arr _ => "object"
  | .obj _ => "object"
  | .func => "function"

/-- JavaScript `Array.isArray`. -/
def jsIsArray : JsValue → Bool
  | .arr _ => true
  | _ => false

/-- JavaScript strict equality `v === s` against a string literal. -/
def jsIsStr (v : JsValue) (s : String) : Bool :=
  match v with
  | .str t => t = s
  | _ => false

/-! ## `ClaudeApiClient` (browser-context executor, `src/unnamed/part_001`) -/

/-- The `IClaudeConfiguration` interface as declared in `claudeTypes.ts`: like the
main-process one but with `model` required. -/
structure ApiConfig where
  apiKey : String
  baseUrl : Option String
  model : String
  maxTokens : Option Nat
  temperature : Option ℚ
deriving DecidableEq, Repr

namespace ClaudeApiClient

/-- Model of `isConfigured()` (part_001 lines 87-91): `!!this._configuration?.apiKey`
— true iff a configuration is stored and its API key is a non-empty
string.  `none` models the state before any `configure` call. -/
def isConfigured (configuration : Option ApiConfig) : Bool :=
  match configuration with
  | some cfg => cfg.apiKey ≠ ""
  | none => false

/-- The `requestBody` object literal of `ClaudeApiClient.sendMessage`
(part_001 lines 110-119).  Identical parameter resolution to the
main-process service, except the model is the explicit `model` argument
and `stream: false` is hardcoded (`// Force non-streaming to avoid CORS
issues`) — the supplied `onProgress` callback does not influence it. -/
def requestBody (configuration : ApiConfig) (messages : List MainMessage)
    (model : String) (options : SendOptions) : RequestBody :=
  { model := model
    max_tokens := jsOrNat options.maxTokens (jsOrNat configuration.maxTokens 4096)
    temperature := jsCoalesceQ options.temperature
      (jsCoalesceQ configuration.temperature (7/10))
    messages := messages.filter (fun m => m.role ≠ ClaudeRole.system)
    system := (messages.find? (fun m => m.role = ClaudeRole.system)).map
      (fun m => m.content)
    stream := false
    tools := options.tools
    tool_choice := options.toolChoice }

/-- Model of `ClaudeApiClient.sendMessage` up to the transport invocation (part_001
lines 93-146): `if (!this._configuration) throw new Error('Claude API
client is not configured')` — note the guard tests only that a
configuration object is stored, not that its API key is non-empty — then
the request body is assembled and handed to `_handleNonStreamingRequest`
(the `onProgress` flag only triggers a log warning).  `.ok` is the wire
request that reaches the transport; `.error` means no network call. -/
def sendMessageWire (configuration : Option ApiConfig)
    (messages : List MainMessage) (model : String) (options : SendOptions)
    (hasOnProgress : Bool) : Except String RequestBody :=
  match configuration with
  | none => .error "Claude API client is not configured"
  | some cfg => .ok (requestBody cfg messages model options)

/-- Model of `_isValidClaudeResponse` (part_001 lines 216-226), transcribed
conjunct by conjunct. -/
def isValidClaudeResponse (o : JsValue) : Bool :=
  jsTruthy o
  && jsTypeof (jsGet o "id") == "string"
  && jsIsStr (jsGet o "type") "message"
  && jsIsStr (jsGet o "role") "assistant"
  && jsIsArray (jsGet o "content")
  && jsTypeof (jsGet o "model") == "string"
  && jsTruthy (jsGet o "usage")
  && jsTypeof (jsGet (jsGet o "usage") "input_tokens") == "number"
  && jsTypeof (jsGet (jsGet o "usage") "output_tokens") == "number"

/-- What the transport (`requestService.request`) hands back: an optional
status code, the raw body text, and the outcome of `JSON.parse` on that
text — `.error` models a parse exception with the JS error message,
`.ok` the parsed value. -/
structure TransportResponse where
  statusCode : Option Nat
  bodyText : String
  parsed : Except String JsValue

/-- Outcome of `_handleNonStreamingRequest`: the settled result together
with how many times the transport was invoked. -/
structure NonStreamingOutcome where
  result : Except String JsValue
  transportCalls : Nat

/-- Model of `_handleNonStreamingRequest` (part_001 lines 157-214).  Its first
statement is the unconditional `await this.requestService.request(...)`,
so the transport is invoked exactly once before anything else — including
before the cancellation check; the steps after it are, in order:
cancellation check, HTTP-status check, `JSON.parse`, structural
validation. -/
def handleNonStreamingRequest (cancelled : Bool)
    (response : TransportResponse) : NonStreamingOutcome :=
  { transportCalls := 1
    result :=
      if cancelled then .error "Request was cancelled"
      else if (match response.statusCode with
               | some s => decide (400 ≤ s)
               | none => false) then
        .error ("Claude API error: "
          ++ toString (response.statusCode.getD 0) ++ " - " ++ response.bodyText)
      else
        match response.parsed with
        | .error e => .error ("Invalid JSON response from Claude API: " ++ e)
        | .ok v =>
          if isValidClaudeResponse v then .ok v
          else .error "Invalid response format from Claude API" }

end ClaudeApiClient

namespace ClaudeMainService

/-- The response handling of `ClaudeMainService.sendMessage`
(DISTRIBUTION.md lines 370-382): on `!response.ok` an API error carrying
status and body text; otherwise `await response.json() as IClaudeResponse`
— the parsed object is returned as-is, with **no** structural
validation (`.error` on the parse side models `response.json()`
rejecting). -/
def handleSendMessageResponse (ok : Bool) (status : Nat)
    (statusText bodyText : String) (json : Except String JsValue) :
    Except String JsValue :=
  if !ok then
    .error ("Claude API error: " ++ toString status ++ " " ++ statusText
      ++ " - " ++ bodyText)
  else
    match json with
    | .error e => .error e
    | .ok v => .ok v

end ClaudeMainService

/-! ## The IPC-relaying `ClaudeApiClient` (`claudeIpc.ts`, second section) -/

namespace ClaudeIpcClient

/-- The non-streaming path of the IPC variant of
`ClaudeApiClient.sendMessage` (`claudeIpc.ts` lines 165-214): after the
configuration guard, `channel.call('sendMessage', ...)` is invoked
unconditionally — there is no cancellation check before dispatch — and
only if that call **rejects** is the token consulted, converting the
failure into `'Request was cancelled'`.  A fulfilled channel call returns
its response even when the token is already signalled.  `channelResult`
is the settled outcome of the (single) channel invocation;
`transportCalls` counts channel invocations. -/
def sendMessage (configuration : Option ApiConfig) (cancelled : Bool)
    (channelResult : Except String JsValue) :
    ClaudeApiClient.NonStreamingOutcome :=
  match configuration with
  | none => { result := .error "Claude API client is not configured"
              transportCalls := 0 }
  | some _ =>
    { transportCalls := 1
      result :=
        match channelResult with
        | .ok r => .ok r
        | .error e =>
          if cancelled then .error "Request was cancelled" else .error e }

end ClaudeIpcClient

/-! ## Streaming decoder (`ClaudeMainService._handleStreamingResponse`) -/

/-- The `usage` object of a `message_delta` stream event. -/
structure StreamUsage where
  input_tokens : Int
  output_tokens : Int
deriving DecidableEq, Repr

/-- The shape of a parsed stream-event object, restricted to the fields
the decoder inspects: `parsed.type`, `parsed.delta?.text`, `parsed.usage`.

* `contentBlockDelta text?` — `parsed.type === 'content_block_delta'`;
  `text?` is `parsed.delta?.text` when that is a present string
  (`none` covers an absent `delta` or an absent `text`).
* `messageDelta usage?` — `parsed.type === 'message_delta'`; `usage?` is
  `parsed.usage` when present (truthy).
* `otherEvent ty` — any other `type` tag (message_start,
  content_block_start, content_block_stop, message_stop, ...). -/
inductive StreamEvent where
  | contentBlockDelta (text : Option String)
  | messageDelta (usage : Option StreamUsage)
  | otherEvent (ty : String)
deriving DecidableEq, Repr

/-- One line of the chunked body, classified exactly along the branches of
`_handleStreamingResponse` (DISTRIBUTION.md lines 475-494):

* `notData raw` — `!line.startsWith('data: ')`: ignored;
* `done` — a `data: ` line whose payload is the literal `[DONE]`
  (the `continue` branch);
* `malformed raw` — a `data: ` line whose payload `JSON.parse` rejects
  (the `catch (parseError)` branch: ignored);
* `event e` — a `data: ` line whose payload parses to the object `e`. -/
inductive DataLine where
  | notData (raw : String)
  | done
  | malformed (raw : String)
  | event (e : StreamEvent)
deriving DecidableEq, Repr

/-- Abbreviation for the data line carrying a text delta, i.e.
`data: {"type":"content_block_delta","delta":{"type":"text_delta","text":t}}`. -/
def deltaLine (t : String) : DataLine :=
  .event (.contentBlockDelta (some t))

/-- The mutable state of `_handleStreamingResponse`: the `fullContent`
accumulator, the last captured `usage`, and — to make the callback
observable — the ordered list of arguments `onProgress` has been invoked
with so far. -/
structure StreamState where
  fullContent : String
  usage : Option StreamUsage
  progressCalls : List String
deriving DecidableEq, Repr

/-- The final value of `_handleStreamingResponse`: the `IClaudeResponse`
literal `{content: [{text: fullContent, type: 'text'}], usage}` plus the
observed `onProgress` invocations. -/
structure StreamResult where
  contentText : String
  contentType : String
  usage : Option StreamUsage
  progressCalls : List String
deriving DecidableEq, Repr

namespace ClaudeMainService

/-- The body of the `for (const line of lines)` loop of
`_handleStreamingResponse` (DISTRIBUTION.md lines 475-494), for one line:

* lines without the `data: ` prefix are skipped;
* `data: [DONE]` hits `continue` — the state is untouched and processing
  moves on to the next line;
* unparseable payloads are swallowed (`// Ignore parsing errors`);
* `content_block_delta` with a truthy `delta?.text` (JS truthiness: a
  present, non-empty string) appends to `fullContent` and invokes
  `onProgress(text)`;
* `message_delta` with a truthy `usage` overwrites the captured usage. -/
def processLine (st : StreamState) : DataLine → StreamState
  | .notData _ => st
  | .done => st
  | .malformed _ => st
  | .event (.contentBlockDelta text?) =>
    match text? with
    | some t =>
      if t ≠ "" then
        { st with fullContent := st.fullContent ++ t
                  progressCalls := st.progressCalls ++ [t] }
      else st
    | none => st
  | .event (.messageDelta usage?) =>
    match usage? with
    | some u => { st with usage := some u }
    | none => st
  | .event (.otherEvent _) => st

/-- The inner loop over the lines of one decoded chunk. -/
def processLines (st : StreamState) (lines : List DataLine) : StreamState :=
  lines.foldl processLine st

/-- The outer `while (true)` reader loop: one iteration per chunk handed
out by `reader.read()`, each chunk split into lines. -/
def processChunks (st : StreamState) (chunks : List (List DataLine)) :
    StreamState :=
  chunks.foldl processLines st

/-- Model of `_handleStreamingResponse` (DISTRIBUTION.md lines 452-507) over a
streamed body given as the list of chunks the reader yields before being
exhausted: starting from `fullContent = ''`, `usage = undefined`, both
loops run to completion and the result is
`{content: [{text: fullContent, type: 'text'}], usage}`. -/
def handleStreamingResponse (chunks : List (List DataLine)) : StreamResult :=
  let st := processChunks { fullContent := "", usage := none,
                            progressCalls := [] } chunks
  { contentText := st.fullContent
    contentType := "text"
    usage := st.usage
    progressCalls := st.progressCalls }

end ClaudeMainService

/-! ## Cross-process bridge (`ClaudeChannel`, `src/unnamed/part_000`) -/

/-- An invocation of the remote executor (`IClaudeMainService`), recording
which method was called and with which (dynamic) arguments.  A channel
result of `.ok call` means the executor was invoked; `.error msg` means
the channel threw before reaching the executor. -/
inductive ExecutorCall where
  | testConnection (config : JsValue)
  | sendMessage (config messages options : JsValue)
  | sendStreamingMessage (config messages onProgress options : JsValue)

/-- JavaScript `arg[i]` on an array payload, with `undefined` past the end. -/
def jsIdx (elems : List JsValue) (i : Nat) : JsValue :=
  elems.getD i .undefined

namespace ClaudeChannel

/-- Model of `ClaudeChannel.call` — the validating variant (part_000 lines 18-46):
first `if (!Array.isArray(arg)) throw 'Invalid arguments for command:
...'`, then a per-command minimum-arity check, then the executor is
invoked with positional arguments; an unrecognized command falls through
the `switch` to `throw 'Call not found: ...'`. -/
def call (command : String) (arg : JsValue) : Except String ExecutorCall :=
  if !jsIsArray arg then
    .error ("Invalid arguments for command: " ++ command)
  else
    let elems := match arg with | .arr xs => xs | _ => []
    match command with
    | "testConnection" =>
      if elems.length < 1 then .error "testConnection requires config argument"
      else .ok (.testConnection (jsIdx elems 0))
    | "sendMessage" =>
      if elems.length < 2 then
        .error "sendMessage requires config and messages arguments"
      else .ok (.sendMessage (jsIdx elems 0) (jsIdx elems 1) (jsIdx elems 2))
    | "sendStreamingMessage" =>
      if elems.length < 3 then
        .error "sendStreamingMessage requires config, messages, and onProgress arguments"
      else .ok (.sendStreamingMessage (jsIdx elems 0) (jsIdx elems 1)
        (jsIdx elems 2) (jsIdx elems 3))
    | _ => .error ("Call not found: " ++ command)

end ClaudeChannel

/-- JavaScript element access `arg[i]` on an arbitrary payload, as an
`Except`: on `undefined`/`null` it throws a `TypeError`; on an array it
yields the element (or `undefined` past the end); on other values it
yields `undefined` (no such index property). -/
def jsIndexE (arg : JsValue) (i : Nat) : Except String JsValue :=
  match arg with
  | .undefined => .error "TypeError: cannot read properties of undefined"
  | .jsNull => .error "TypeError: cannot read properties of null"
  | .arr elems => .ok (jsIdx elems i)
  | _ => .ok .undefined

namespace ClaudeChannelV3

/-- Model of `ClaudeChannel.call` — the non-validating variant (part_000 lines
142-150): no `Array.isArray` check and no arity check; the positional
elements `arg[0]`, `arg[1]`, ... are read directly and the executor is
invoked with whatever they evaluate to (for `sendStreamingMessage` a
no-op closure `() => { }` is passed as the progress callback).  An
unrecognized command still throws `'Call not found: ...'`. -/
def call (command : String) (arg : JsValue) : Except String ExecutorCall :=
  match command with
  | "testConnection" => do
    let a0 ← jsIndexE arg 0
    .ok (.testConnection a0)
  | "sendMessage" => do
    let a0 ← jsIndexE arg 0
    let a1 ← jsIndexE arg 1
    let a2 ← jsIndexE arg 2
    .ok (.sendMessage a0 a1 a2)
  | "sendStreamingMessage" => do
    let a0 ← jsIndexE arg 0
    let a1 ← jsIndexE arg 1
    let a2 ← jsIndexE arg 2
    .ok (.sendStreamingMessage a0 a1 .func a2)
  | _ => .error ("Call not found: " ++ command)

end ClaudeChannelV3

/-! ## Provider adapter message conversion (`src/unnamed/part_002`) -/

/-- The host's `ChatMessageRole` enumeration. -/
inductive ChatMessageRole where
  | System
  | User
  | Assistant
deriving DecidableEq, Repr

/-- One content part of a host `IChatMessage`, restricted to the variants
`_convertMessagesToClaude` distinguishes: a text part (`{type: 'text',
value}`), an image part (`{type: 'image_url', value: {data, mimeType}}`
with `data` a byte buffer, modelled as a list of byte values `< 256`),
and any other part (stringified by the `String(part)` fallback). -/
inductive ChatPart where
  | text (value : String)
  | imageUrl (data : List Nat) (mimeType : String)
  | otherPart (stringified : String)
deriving DecidableEq, Repr

/-- A host `IChatMessage` whose content is an array of parts. -/
structure ChatMessage where
  role : ChatMessageRole
  content : List ChatPart
deriving DecidableEq, Repr

/-- One content part of the wire `IClaudeMessage` (claudeTypes.ts lines
16-24): `{type:'text', text}` or
`{type:'image', source:{type:'base64', media_type, data}}`. -/
inductive ClaudeContentPart where
  | text (text : String)
  | image (media_type : String) (data : String)
deriving DecidableEq, Repr

/-- The `IClaudeMessage.content` union: a plain string or an array of parts. -/
inductive ClaudeContent where
  | str (s : String)
  | parts (ps : List ClaudeContentPart)
deriving DecidableEq, Repr

/-- A wire `IClaudeMessage` (claudeTypes.ts lines 14-25). -/
structure ClaudeMessage where
  role : ClaudeRole
  content : ClaudeContent
deriving DecidableEq, Repr

/-- The base64 alphabet. -/
def base64Chars : List Char :=
  "ABCDEFGHIJKLMNOPQRSTUVWXYZabcdefghijklmnopqrstuvwxyz0123456789+/".toList

/-- The base64 digit for a 6-bit value. -/
def sextetChar (n : Nat) : Char :=
  base64Chars.getD n 'A'

/-- Standard base64 encoding of a byte sequence (the semantics of
`Buffer.toString('base64')` used at part_002 line 164), producing the
digit/padding characters three input bytes at a time. -/
def base64EncodeList : List Nat → List Char
  | [] => []
  | [a] =>
    [sextetChar (a / 4), sextetChar (a % 4 * 16), '=', '=']
  | [a, b] =>
    [sextetChar (a / 4), sextetChar (a % 4 * 16 + b / 16),
     sextetChar (b % 16 * 4), '=']
  | a :: b :: c :: rest =>
    sextetChar (a / 4) :: sextetChar (a % 4 * 16 + b / 16) ::
    sextetChar (b % 16 * 4 + c / 64) :: sextetChar (c % 64) ::
    base64EncodeList rest

/-- The `Buffer.toString('base64')` conversion as a `String`-valued function. -/
def base64Encode (bytes : List Nat) : String :=
  String.mk (base64EncodeList bytes)

/-- The 6-bit value of a base64 digit (its index in the alphabet). -/
def charSextet (ch : Char) : Nat :=
  base64Chars.indexOf ch

/-- Standard base64 decoding: four digit/padding characters at a time,
honouring `=` padding. -/
def base64DecodeList : List Char → List Nat
  | c0 :: c1 :: c2 :: c3 :: rest =>
    if c2 = '=' then
      [charSextet c0 * 4 + charSextet c1 / 16]
    else if c3 = '=' then
      [charSextet c0 * 4 + charSextet c1 / 16,
       charSextet c1 % 16 * 16 + charSextet c2 / 4]
    else
      (charSextet c0 * 4 + charSextet c1 / 16) ::
      (charSextet c1 % 16 * 16 + charSextet c2 / 4) ::
      (charSextet c2 % 4 * 64 + charSextet c3) ::
      base64DecodeList rest
  | _ => []

/-- Base64 decoding of a string to bytes. -/
def base64Decode (s : String) : List Nat :=
  base64DecodeList s.toList

namespace ClaudeLanguageModelProvider

/-- Model of `_convertRole` (part_002 lines 186-197). -/
def convertRole : ChatMessageRole → ClaudeRole
  | .System => .system
  | .User => .user
  | .Assistant => .assistant

/-- The per-part conversion inside `_convertMessagesToClaude` (part_002
lines 151-172): a text part becomes `{type:'text', text: part.value}`; an
image part (which always carries `data` and `mimeType`, so the `'data' in
part.value && 'mimeType' in part.value` guard holds) becomes
`{type:'image', source:{type:'base64', media_type: part.value.mimeType,
data: part.value.data.toString('base64')}}`; anything else falls through
to `{type:'text', text: String(part)}`. -/
def convertPart : ChatPart → ClaudeContentPart
  | .text v => .text v
  | .imageUrl data mimeType => .image mimeType (base64Encode data)
  | .otherPart s => .text s

/-- Model of `_convertMessagesToClaude` (part_002 lines 145-184) on messages whose
content is an array of parts (the `Array.isArray(msg.content)` branch). -/
def convertMessagesToClaude (messages : List ChatMessage) :
    List ClaudeMessage :=
  messages.map (fun msg =>
    { role := convertRole msg.role
      content := .parts (msg.content.map convertPart) })

/-- Modelled from the spec: the repository contains no decoder for the
wire request (the request is consumed by the remote API), but the spec's
round-trip property — "encoding a multi-part message containing one text
part and one base64 image part, then decoding the wire request, must
preserve both parts' content and MIME type exactly" — requires one.
Following the spec's wire description (image parts carry a base64 payload
plus MIME type), a wire text part yields a host text part with the same
text, and a wire image part yields a host image part with the same MIME
type and the base64-decoded payload. -/
def decodeWirePart : ClaudeContentPart → ChatPart
  | .text t => .text t
  | .image media_type data => .imageUrl (base64Decode data) media_type

/-- Modelled from the spec: decoding of a wire message's content back
into host content parts (see `decodeWirePart`); plain-string content
decodes to a single text part. -/
def decodeWireContent : ClaudeContent → List ChatPart
  | .str s => [.text s]
  | .parts ps => ps.map decodeWirePart

end ClaudeLanguageModelProvider

/-! ## Helper lemmas -/

/-- In a list containing at most one element satisfying `p`, `find?`
locates any member that satisfies `p`. -/
theorem find_eq_of_mem_of_filter_le_one {α : Type} (p : α → Bool) :
    ∀ (l : List α), (l.filter p).length ≤ 1 →
      ∀ m ∈ l, p m = true → l.find? p = some m := by
  intro l
  induction l with
  | nil => intro _ m hm; cases hm
  | cons a t ih =>
    intro hlen m hm hpm
    cases hpa : p a with
    | true =>
      rw [List.find?_cons_of_pos _ hpa]
      rcases List.mem_cons.mp hm with rfl | hm
      · rfl
      · exfalso
        have hmf : m ∈ t.filter p := List.mem_filter.mpr ⟨hm, hpm⟩
        have h1 : 1 ≤ (t.filter p).length :=
          List.length_pos.mpr (List.ne_nil_of_mem hmf)
        rw [List.filter_cons_of_pos hpa] at hlen
        simp only [List.length_cons] at hlen
        omega
    | false =>
      rw [List.find?_cons_of_neg _ (by simp [hpa])]
      rcases List.mem_cons.mp hm with rfl | hm
      · rw [hpa] at hpm; cases hpm
      · rw [List.filter_cons_of_neg (by simp [hpa])] at hlen
        exact ih hlen m hm hpm

/-- The chunk loop is the line loop over the concatenation of all chunks:
chunk boundaries do not affect the fold. -/
theorem processChunks_eq_flatten (chunks : List (List DataLine)) :
    ∀ st : StreamState,
      ClaudeMainService.processChunks st chunks
        = ClaudeMainService.processLines st chunks.flatten := by
  induction chunks with
  | nil => intro st; rfl
  | cons c cs ih =>
    intro st
    simp only [ClaudeMainService.processChunks, ClaudeMainService.processLines,
      List.foldl_cons, List.flatten_cons, List.foldl_append]
    exact ih _

/-- Folding the line processor over a sequence of non-empty text-delta
data lines appends each fragment to the accumulating buffer and records
one `onProgress` invocation per fragment, in order. -/
theorem processLines_deltaLines (frags : List String) :
    ∀ st : StreamState, (∀ f ∈ frags, f ≠ "") →
      ClaudeMainService.processLines st (frags.map deltaLine)
        = { fullContent := frags.foldl (· ++ ·) st.fullContent
            usage := st.usage
            progressCalls := st.progressCalls ++ frags } := by
  induction frags with
  | nil => intro st _; simp [ClaudeMainService.processLines]
  | cons f fs ih =>
    intro st hne
    have hf : f ≠ "" := hne f (by simp)
    simp only [List.map_cons, ClaudeMainService.processLines, List.foldl_cons]
    rw [show ClaudeMainService.processLine st (deltaLine f)
        = { fullContent := st.fullContent ++ f
            usage := st.usage
            progressCalls := st.progressCalls ++ [f] } by
      simp [ClaudeMainService.processLine, deltaLine, hf]]
    have := ih { fullContent := st.fullContent ++ f
                 usage := st.usage
                 progressCalls := st.progressCalls ++ [f] }
      (fun g hg => hne g (by simp [hg]))
    simp only [ClaudeMainService.processLines] at this
    rw [this]
    simp

/-! ## Claim C1 — streaming decode is order-preserving -/

/-- Claim C1: for every streamed body whose data lines carry
`content_block_delta` events with (non-empty — a JS-falsy empty string is
not "carrying a text fragment" to the decoder's truthiness test)
text fragments, the decoder appends each fragment to the accumulating
buffer and invokes the progress callback once per fragment in arrival
order, regardless of how the body is split into chunks: the final
Response's single text block is the concatenation of the fragments and
the callback log is exactly the fragment list. -/
theorem claim_C1_streaming_order_preserving (chunks : List (List DataLine))
    (frags : List String)
    (hlines : chunks.flatten = frags.map deltaLine)
    (hne : ∀ f ∈ frags, f ≠ "") :
    (ClaudeMainService.handleStreamingResponse chunks).contentText
        = String.join frags
    ∧ (ClaudeMainService.handleStreamingResponse chunks).contentType = "text"
    ∧ (ClaudeMainService.handleStreamingResponse chunks).progressCalls
        = frags := by
  have key : ClaudeMainService.processChunks
      { fullContent := "", usage := none, progressCalls := [] } chunks
      = { fullContent := frags.foldl (· ++ ·) ""
          usage := none
          progressCalls := frags } := by
    rw [processChunks_eq_flatten, hlines]
    simpa using processLines_deltaLines frags
      { fullContent := "", usage := none, progressCalls := [] } hne
  refine ⟨?_, rfl, ?_⟩
  · show (ClaudeMainService.processChunks
      { fullContent := "", usage := none, progressCalls := [] } chunks).fullContent
      = String.join frags
    rw [key]
    rfl
  · show (ClaudeMainService.processChunks
      { fullContent := "", usage := none, progressCalls := [] } chunks).progressCalls
      = frags
    rw [key]

/-- Witness for C1, the spec's concrete instance: the body carrying the
fragments `"He"` then `"llo"` (split across two reader chunks) yields the
final text `"Hello"` and the callback sequence `["He", "llo"]`. -/
theorem claim_C1_witness :
    (ClaudeMainService.handleStreamingResponse
        [[deltaLine "He"], [deltaLine "llo"]]).contentText = "Hello"
    ∧ (ClaudeMainService.handleStreamingResponse
        [[deltaLine "He"], [deltaLine "llo"]]).progressCalls = ["He", "llo"] := by
  have h := claim_C1_streaming_order_preserving
    [[deltaLine "He"], [deltaLine "llo"]] ["He", "llo"] rfl (by decide)
  exact ⟨h.1.trans rfl, h.2.2⟩

/-! ## Claim C2 — system-message extraction -/

/-- Claim C2: for every message list containing at most one system-role
message, `sendMessage` puts exactly that message's content into the wire
request's `system` field and excludes it from the wire `messages` array,
preserving the order of the remaining turns (the wire array is the input
filtered to the non-system turns); if no system-role message exists, the
`system` field is undefined/omitted (`none`). -/
theorem claim_C2_system_extraction (config : MainConfig)
    (messages : List MainMessage) (options : SendOptions)
    (hone : (messages.filter (fun m => m.role = ClaudeRole.system)).length ≤ 1) :
    (ClaudeMainService.sendMessageBody config messages options).messages
        = messages.filter (fun m => m.role ≠ ClaudeRole.system)
    ∧ (∀ m ∈ messages, m.role = ClaudeRole.system →
        (ClaudeMainService.sendMessageBody config messages options).system
          = some m.content)
    ∧ ((∀ m ∈ messages, m.role ≠ ClaudeRole.system) →
        (ClaudeMainService.sendMessageBody config messages options).system
          = none) := by
  refine ⟨rfl, ?_, ?_⟩
  · intro m hm hsys
    show (messages.find? (fun m => m.role = ClaudeRole.system)).map
      (fun m => m.content) = some m.content
    rw [find_eq_of_mem_of_filter_le_one _ messages hone m hm (by simp [hsys])]
    rfl
  · intro hnone
    show (messages.find? (fun m => m.role = ClaudeRole.system)).map
      (fun m => m.content) = none
    rw [List.find?_eq_none.mpr (fun m hm => by simp [hnone m hm])]
    rfl

/-- Witness for C2: with the turn list
`[system "Be brief", user "Hi", assistant "Hello", user "Bye"]` the wire
body carries `system = "Be brief"` and the three non-system turns in
order; with no system turn, `system` is `none`. -/
theorem claim_C2_witness :
    (ClaudeMainService.sendMessageBody
        ⟨"sk-x", none, none, none, none⟩
        [⟨ClaudeRole.system, "Be brief"⟩, ⟨ClaudeRole.user, "Hi"⟩,
         ⟨ClaudeRole.assistant, "Hello"⟩, ⟨ClaudeRole.user, "Bye"⟩]
        SendOptions.none).system = some "Be brief"
    ∧ (ClaudeMainService.sendMessageBody
        ⟨"sk-x", none, none, none, none⟩
        [⟨ClaudeRole.system, "Be brief"⟩, ⟨ClaudeRole.user, "Hi"⟩,
         ⟨ClaudeRole.assistant, "Hello"⟩, ⟨ClaudeRole.user, "Bye"⟩]
        SendOptions.none).messages
        = [⟨ClaudeRole.user, "Hi"⟩, ⟨ClaudeRole.assistant, "Hello"⟩,
           ⟨ClaudeRole.user, "Bye"⟩]
    ∧ (ClaudeMainService.sendMessageBody
        ⟨"sk-x", none, none, none, none⟩
        [⟨ClaudeRole.user, "Hi"⟩] SendOptions.none).system = none := by
  have h := claim_C2_system_extraction ⟨"sk-x", none, none, none, none⟩
    [⟨ClaudeRole.system, "Be brief"⟩, ⟨ClaudeRole.user, "Hi"⟩,
     ⟨ClaudeRole.assistant, "Hello"⟩, ⟨ClaudeRole.user, "Bye"⟩]
    SendOptions.none (by decide)
  have h2 := claim_C2_system_extraction ⟨"sk-x", none, none, none, none⟩
    [⟨ClaudeRole.user, "Hi"⟩] SendOptions.none (by decide)
  exact ⟨h.2.1 ⟨ClaudeRole.system, "Be brief"⟩ (by simp) rfl,
    h.1.trans (by decide), h2.2.2 (by decide)⟩

/-! ## Claim C3 — unconfigured calls -/

/-- Counterexample to C3 as stated: a configuration whose API key is the
empty string.  `isConfigured()` is `false` (no API key is present at call
time), yet `ClaudeApiClient.sendMessage` does not fail — its guard only
tests that a configuration object exists — and the assembled wire request
is handed to the transport, so a network call is attempted. -/
theorem claim_C3_counterexample :
    ClaudeApiClient.isConfigured
        (some ⟨"", none, "claude-sonnet-4-20250514", none, none⟩) = false
    ∧ ClaudeApiClient.sendMessageWire
        (some ⟨"", none, "claude-sonnet-4-20250514", none, none⟩)
        [⟨ClaudeRole.user, "Hello"⟩] "claude-sonnet-4-20250514"
        SendOptions.none false
      = .ok (ClaudeApiClient.requestBody
          ⟨"", none, "claude-sonnet-4-20250514", none, none⟩
          [⟨ClaudeRole.user, "Hello"⟩] "claude-sonnet-4-20250514"
          SendOptions.none) :=
  ⟨rfl, rfl⟩

/-- Claim C3 as amended: `ClaudeApiClient.sendMessage` fails with the
"not configured" error and attempts no network call exactly when no
configuration object is stored (no `configure` call has happened); a
stored configuration with an empty API key — for which `isConfigured()`
is `false` — passes the guard.  `ClaudeMainService.sendMessage` does
reject a missing/empty API key, with the error "API key is required",
before any network request. -/
theorem claim_C3_not_configured (messages : List MainMessage)
    (model : String) (options : SendOptions) (hasOnProgress : Bool)
    (config : MainConfig) (mainMessages : List MainMessage)
    (mainOptions : SendOptions) (hkey : config.apiKey = "") :
    ClaudeApiClient.sendMessageWire none messages model options hasOnProgress
        = .error "Claude API client is not configured"
    ∧ ClaudeMainService.sendMessageWire config mainMessages mainOptions
        = .error "API key is required" := by
  refine ⟨rfl, ?_⟩
  simp [ClaudeMainService.sendMessageWire, hkey]

/-- Witness for C3 (amended): concrete unconfigured calls. -/
theorem claim_C3_witness :
    ClaudeApiClient.sendMessageWire none [⟨ClaudeRole.user, "Hello"⟩]
        "claude-sonnet-4-20250514" SendOptions.none false
        = .error "Claude API client is not configured"
    ∧ ClaudeMainService.sendMessageWire ⟨"", none, none, none, none⟩
        [⟨ClaudeRole.user, "Hello"⟩] SendOptions.none
        = .error "API key is required" :=
  claim_C3_not_configured [⟨ClaudeRole.user, "Hello"⟩]
    "claude-sonnet-4-20250514" SendOptions.none false
    ⟨"", none, none, none, none⟩ [⟨ClaudeRole.user, "Hello"⟩]
    SendOptions.none rfl

/-! ## Claim C4 — numeric parameter resolution -/

/-- Counterexample to C4 as stated: an explicit `options.maxTokens` of `0`
with a stored configuration `maxTokens` of `10`.  The claimed precedence
(explicit options value over stored configuration value) would resolve
`max_tokens` to `0`, but JavaScript `||` treats the explicit `0` as
falsy, so the body carries `10`. -/
theorem claim_C4_counterexample :
    (ClaudeMainService.sendMessageBody ⟨"sk-x", none, none, some 10, none⟩
        [⟨ClaudeRole.user, "Hello"⟩]
        ⟨some 0, none, none, none⟩).max_tokens = 10
    ∧ (ClaudeMainService.sendMessageBody ⟨"sk-x", none, none, some 10, none⟩
        [⟨ClaudeRole.user, "Hello"⟩]
        ⟨some 0, none, none, none⟩).max_tokens ≠ 0 :=
  ⟨rfl, by decide⟩

/-- Claim C4 as amended: `max_tokens` resolves by JavaScript `||`, so the
precedence "explicit options value, else stored configuration value, else
4096" holds whenever the supplied values are non-zero (a zero value is
falsy and falls through); `temperature` resolves by `??`, so its
precedence "explicit options value, else stored configuration value, else
0.7" holds unconditionally, including for an explicit `0`.  The spec's
end-to-end scenario holds as stated: with configuration
`{apiKey:"sk-x", model:"claude-sonnet-4-20250514", maxTokens:10}` and the
single user message `"Hello"`, the non-streaming body has
`max_tokens = 10`, `stream = false`, exactly that message in `messages`,
and no `system` field. -/
theorem claim_C4_parameter_resolution (config : MainConfig)
    (messages : List MainMessage) (options : SendOptions)
    (h1 : options.maxTokens ≠ some 0) (h2 : config.maxTokens ≠ some 0) :
    (ClaudeMainService.sendMessageBody config messages options).max_tokens
        = options.maxTokens.getD (config.maxTokens.getD 4096)
    ∧ (ClaudeMainService.sendMessageBody config messages options).temperature
        = options.temperature.getD (config.temperature.getD (7/10))
    ∧ ClaudeMainService.sendMessageBody
        ⟨"sk-x", none, some "claude-sonnet-4-20250514", some 10, none⟩
        [⟨ClaudeRole.user, "Hello"⟩] SendOptions.none
      = { model := "claude-sonnet-4-20250514", max_tokens := 10,
          temperature := 7/10, messages := [⟨ClaudeRole.user, "Hello"⟩],
          system := none, stream := false, tools := none,
          tool_choice := none } := by
  refine ⟨?_, ?_, rfl⟩
  · show jsOrNat options.maxTokens (jsOrNat config.maxTokens 4096) = _
    cases ho : options.maxTokens with
    | none =>
      cases hc : config.maxTokens with
      | none => rfl
      | some v =>
        have hv : v ≠ 0 := fun h => h2 (by rw [hc, h])
        simp [jsOrNat, hv]
    | some v =>
      have hv : v ≠ 0 := fun h => h1 (by rw [ho, h])
      simp [jsOrNat, hv]
  · show jsCoalesceQ options.temperature
      (jsCoalesceQ config.temperature (7/10)) = _
    cases options.temperature with
    | none => cases config.temperature <;> rfl
    | some v => rfl

/-- Witness for C4 (amended): explicit options `{maxTokens: 500,
temperature: 0}` beat a stored configuration `{maxTokens: 10,
temperature: 1/2}`, and the explicit temperature `0` is honoured. -/
theorem claim_C4_witness :
    (ClaudeMainService.sendMessageBody
        ⟨"sk-x", none, none, some 10, some (1/2)⟩ []
        ⟨some 500, some 0, none, none⟩).max_tokens = 500
    ∧ (ClaudeMainService.sendMessageBody
        ⟨"sk-x", none, none, some 10, some (1/2)⟩ []
        ⟨some 500, some 0, none, none⟩).temperature = 0
    ∧ ClaudeMainService.sendMessageBody
        ⟨"sk-x", none, some "claude-sonnet-4-20250514", some 10, none⟩
        [⟨ClaudeRole.user, "Hello"⟩] SendOptions.none
      = { model := "claude-sonnet-4-20250514", max_tokens := 10,
          temperature := 7/10, messages := [⟨ClaudeRole.user, "Hello"⟩],
          system := none, stream := false, tools := none,
          tool_choice := none } := by
  have h := claim_C4_parameter_resolution
    ⟨"sk-x", none, none, some 10, some (1/2)⟩ []
    ⟨some 500, some 0, none, none⟩ (by simp) (by simp)
  exact ⟨h.1.trans rfl, h.2.1.trans rfl, h.2.2⟩

/-! ## Claim C5 — the `stream` flag -/

/-- Counterexample to C5 as stated: a `ClaudeApiClient.sendMessage` call
with an `onProgress` callback supplied (`hasOnProgress = true`).  The
claim requires the wire body's `stream` field to be `true`, but the code
hardcodes `stream: false` (`// Force non-streaming to avoid CORS
issues`), so the body sent carries `stream = false`. -/
theorem claim_C5_counterexample :
    ClaudeApiClient.sendMessageWire
        (some ⟨"sk-x", none, "claude-sonnet-4-20250514", none, none⟩)
        [⟨ClaudeRole.user, "Hello"⟩] "claude-sonnet-4-20250514"
        SendOptions.none true
      = .ok { model := "claude-sonnet-4-20250514", max_tokens := 4096,
              temperature := 7/10,
              messages := [⟨ClaudeRole.user, "Hello"⟩], system := none,
              stream := false, tools := none, tool_choice := none } :=
  rfl

/-- Claim C5 as amended: `ClaudeApiClient.sendMessage` always assembles
the body with `stream = false`, whether or not an `onProgress` callback
is supplied (the callback only downgrades with a log warning); the
`stream` field is `true` only in the body assembled by
`ClaudeMainService.sendStreamingMessage` (whose `onProgress` parameter is
mandatory), while `ClaudeMainService.sendMessage` (no callback parameter)
assembles `stream = false`. -/
theorem claim_C5_stream_flag (config : ApiConfig)
    (messages : List MainMessage) (model : String) (options : SendOptions)
    (hasOnProgress : Bool) (mainConfig : MainConfig)
    (mainMessages : List MainMessage) (mainOptions : SendOptions) :
    ClaudeApiClient.sendMessageWire (some config) messages model options
        hasOnProgress
      = .ok (ClaudeApiClient.requestBody config messages model options)
    ∧ (ClaudeApiClient.requestBody config messages model options).stream
        = false
    ∧ (ClaudeMainService.sendMessageBody mainConfig mainMessages
        mainOptions).stream = false
    ∧ (ClaudeMainService.sendStreamingMessageBody mainConfig mainMessages
        mainOptions).stream = true :=
  ⟨rfl, rfl, rfl, rfl⟩

/-! ## Claim C6 — the `[DONE]` sentinel -/

/-- Counterexample to C6 as stated: the streamed body
`[data: [DONE], data: <delta "He">]`.  The claim requires decoding to
terminate at the sentinel with the Response accumulated so far (empty
text, no callback invocations), but the code merely `continue`s past the
sentinel line: the following delta line is processed, the final text is
`"He"` and the callback fires once. -/
theorem claim_C6_counterexample :
    (ClaudeMainService.handleStreamingResponse
        [[DataLine.done, deltaLine "He"]]).contentText = "He"
    ∧ (ClaudeMainService.handleStreamingResponse
        [[DataLine.done, deltaLine "He"]]).progressCalls = ["He"] :=
  ⟨rfl, rfl⟩

/-- Claim C6 as amended: a data line carrying the literal `[DONE]`
end-of-stream sentinel is skipped without error — it leaves the decoding
state untouched — but it does **not** terminate decoding: the remaining
lines are processed normally, and decoding ends only when the reader is
exhausted, producing the Response accumulated over the whole body. -/
theorem claim_C6_sentinel_skipped (st : StreamState) (rest : List DataLine) :
    ClaudeMainService.processLine st DataLine.done = st
    ∧ ClaudeMainService.processLines st (DataLine.done :: rest)
        = ClaudeMainService.processLines st rest :=
  ⟨rfl, rfl⟩

/-! ## Claim C7 — structural validation of non-streaming responses -/

/-- A syntactically valid JSON response object that is missing
`usage.input_tokens` but is otherwise complete. -/
def respNoInputTokens : JsValue :=
  .obj [("id", .str "msg_01"), ("type", .str "message"),
        ("role", .str "assistant"),
        ("content", .arr [.obj [("type", .str "text"), ("text", .str "Hi")]]),
        ("model", .str "claude-3-5-sonnet-20241220"),
        ("stop_reason", .jsNull), ("stop_sequence", .jsNull),
        ("usage", .obj [("output_tokens", .num 5)])]

/-- Counterexample to C7 as stated: on the 2xx body `respNoInputTokens`
(valid JSON, missing the required numeric `usage.input_tokens`),
`ClaudeMainService.sendMessage` does not fail — it performs no structural
validation and returns the partially-populated object as the Response —
even though the object indeed fails the validator
`_isValidClaudeResponse` that the claim describes. -/
theorem claim_C7_counterexample :
    ClaudeMainService.handleSendMessageResponse true 200 "OK" ""
        (.ok respNoInputTokens) = .ok respNoInputTokens
    ∧ ClaudeApiClient.isValidClaudeResponse respNoInputTokens = false :=
  ⟨rfl, rfl⟩

/-- Claim C7 as amended: the browser-context executor
`ClaudeApiClient.sendMessage` behaves as claimed — any 2xx response body
that parses as JSON but fails `_isValidClaudeResponse` (in particular,
any object whose `usage.input_tokens` is not a number) makes the call
fail with the malformed-response error "Invalid response format from
Claude API" instead of returning a partially-populated Response — but
`ClaudeMainService.sendMessage` (main process) performs no structural
validation at all and returns whatever `response.json()` produced. -/
theorem claim_C7_malformed_response (v : JsValue) (status : Nat)
    (bodyText : String)
    (hv : ClaudeApiClient.isValidClaudeResponse v = false)
    (hstatus : status < 400) :
    (ClaudeApiClient.handleNonStreamingRequest false
        { statusCode := some status, bodyText := bodyText,
          parsed := .ok v }).result
      = .error "Invalid response format from Claude API"
    ∧ (∀ w : JsValue,
        jsTypeof (jsGet (jsGet w "usage") "input_tokens") ≠ "number" →
        ClaudeApiClient.isValidClaudeResponse w = false)
    ∧ (∀ okStatus : Nat, ∀ statusText rawBody : String,
        ClaudeMainService.handleSendMessageResponse true okStatus statusText
          rawBody (.ok v) = .ok v) := by
  refine ⟨?_, ?_, fun _ _ _ => rfl⟩
  · have hs : decide (400 ≤ status) = false := decide_eq_false (by omega)
    simp [ClaudeApiClient.handleNonStreamingRequest, hs, hv]
  · intro w hw
    by_contra hcon
    have htrue : ClaudeApiClient.isValidClaudeResponse w = true := by
      revert hcon
      cases ClaudeApiClient.isValidClaudeResponse w <;> simp
    simp only [ClaudeApiClient.isValidClaudeResponse, Bool.and_eq_true,
      beq_iff_eq] at htrue
    exact hw htrue.1.2

/-- Witness for C7 (amended): the concrete body `respNoInputTokens` on a
200 response makes the validating executor fail with the
malformed-response error. -/
theorem claim_C7_witness :
    (ClaudeApiClient.handleNonStreamingRequest false
        { statusCode := some 200, bodyText := "",
          parsed := .ok respNoInputTokens }).result
      = .error "Invalid response format from Claude API"
    ∧ ClaudeMainService.handleSendMessageResponse true 200 "OK" ""
        (.ok respNoInputTokens) = .ok respNoInputTokens := by
  have h := claim_C7_malformed_response respNoInputTokens 200 "" rfl
    (by omega)
  exact ⟨h.1, h.2.2 200 "OK" ""⟩

/-! ## Claim C8 — pre-signalled cancellation -/

/-- Counterexample to C8 as stated: the IPC-relaying
`ClaudeApiClient.sendMessage` (claudeIpc.ts) invoked with an
already-signalled cancellation token.  The claim requires an immediate
Cancelled failure with a zero call count on the transport double, but the
channel is invoked (count 1) and — the channel call having fulfilled —
its response is returned with no Cancelled error at all. -/
theorem claim_C8_counterexample :
    ClaudeIpcClient.sendMessage
        (some ⟨"sk-x", none, "claude-sonnet-4-20250514", none, none⟩) true
        (.ok (JsValue.str "response"))
      = { result := .ok (JsValue.str "response"), transportCalls := 1 } :=
  rfl

/-- Claim C8 as amended: neither `sendMessage` path checks the
cancellation token before dispatch, so even for a pre-signalled token the
transport is invoked exactly once (call count 1, not 0).  In the direct
executor (part_001), a pre-signalled token does settle the call with
"Request was cancelled" — but only after the transport call, since the
check follows the unconditional `await requestService.request(...)`.  In
the IPC variant (claudeIpc.ts), the token is consulted only in the catch
path: a rejected channel call is converted to "Request was cancelled",
while a fulfilled one returns its response despite the signalled token. -/
theorem claim_C8_cancellation (response : ClaudeApiClient.TransportResponse)
    (config : ApiConfig) (reply : JsValue) (failure : String) :
    (ClaudeApiClient.handleNonStreamingRequest true response).result
        = .error "Request was cancelled"
    ∧ (ClaudeApiClient.handleNonStreamingRequest true response).transportCalls
        = 1
    ∧ ClaudeIpcClient.sendMessage (some config) true (.ok reply)
        = { result := .ok reply, transportCalls := 1 }
    ∧ ClaudeIpcClient.sendMessage (some config) true (.error failure)
        = { result := .error "Request was cancelled", transportCalls := 1 } :=
  ⟨rfl, rfl, rfl, rfl⟩

/-! ## Claim C9 — bridge argument validation -/

/-- Counterexample to C9 as stated: the non-validating `ClaudeChannel`
variant (part_000 lines 142-150).  A `testConnection` call whose payload
is a plain (non-array) object does not fail with an "invalid arguments"
error — the executor is invoked, with `undefined` as its config — and a
`sendMessage` call with an empty argument array (below the two-argument
minimum) likewise reaches the executor with `undefined` arguments. -/
theorem claim_C9_counterexample :
    ClaudeChannelV3.call "testConnection" (JsValue.obj [])
        = .ok (ExecutorCall.testConnection JsValue.undefined)
    ∧ ClaudeChannelV3.call "sendMessage" (JsValue.arr [])
        = .ok (ExecutorCall.sendMessage JsValue.undefined JsValue.undefined
            JsValue.undefined) :=
  ⟨rfl, rfl⟩

/-- Claim C9 as amended: the validating `ClaudeChannel` variant (part_000
lines 18-46) behaves as claimed — a non-array payload fails with
"Invalid arguments for command: ..." for every command, a recognized
command with fewer positional arguments than its minimum arity (1 for
`testConnection`, 2 for `sendMessage`, 3 for `sendStreamingMessage`)
fails with that command's required-arguments error, and an unrecognized
command with an array payload fails with "Call not found: ..." — in all
these cases without the executor being invoked (`.error` results carry no
`ExecutorCall`).  The second, non-validating variant of the same class
performs none of these checks and forwards `arg[0..]` to the executor
directly (see the counterexample). -/
theorem claim_C9_bridge_validation (command : String) (arg : JsValue)
    (args : List JsValue)
    (hnarr : jsIsArray arg = false)
    (hcmd : command ≠ "testConnection" ∧ command ≠ "sendMessage"
      ∧ command ≠ "sendStreamingMessage") :
    (∀ anyCommand : String, ClaudeChannel.call anyCommand arg
        = .error ("Invalid arguments for command: " ++ anyCommand))
    ∧ ClaudeChannel.call "testConnection" (.arr [])
        = .error "testConnection requires config argument"
    ∧ (args.length < 2 → ClaudeChannel.call "sendMessage" (.arr args)
        = .error "sendMessage requires config and messages arguments")
    ∧ (args.length < 3 →
        ClaudeChannel.call "sendStreamingMessage" (.arr args)
        = .error
          "sendStreamingMessage requires config, messages, and onProgress arguments")
    ∧ (∀ anyArgs : List JsValue, ClaudeChannel.call command (.arr anyArgs)
        = .error ("Call not found: " ++ command)) := by
  refine ⟨?_, rfl, ?_, ?_, ?_⟩
  · intro anyCommand
    simp [ClaudeChannel.call, hnarr]
  · intro hlen
    simp [ClaudeChannel.call, jsIsArray, hlen]
  · intro hlen
    simp [ClaudeChannel.call, jsIsArray, hlen]
  · intro anyArgs
    simp only [ClaudeChannel.call, jsIsArray, Bool.not_true, if_false,
      Bool.false_eq_true]
    split
    · exact absurd rfl hcmd.1
    · exact absurd rfl hcmd.2.1
    · exact absurd rfl hcmd.2.2
    · rfl

/-- Witness for C9 (amended): the recognized commands with non-array
payloads (a number, a plain object, `undefined`) fail with the
invalid-arguments error, as does the unrecognized `"fetchModels"`; the
concrete under-arity calls fail with their per-command errors; and
`"fetchModels"` with an array payload fails with the call-not-found
error. -/
theorem claim_C9_witness :
    ClaudeChannel.call "testConnection" (JsValue.num 3)
        = .error "Invalid arguments for command: testConnection"
    ∧ ClaudeChannel.call "sendMessage" (JsValue.obj [])
        = .error "Invalid arguments for command: sendMessage"
    ∧ ClaudeChannel.call "sendStreamingMessage" JsValue.undefined
        = .error "Invalid arguments for command: sendStreamingMessage"
    ∧ ClaudeChannel.call "fetchModels" (JsValue.num 3)
        = .error "Invalid arguments for command: fetchModels"
    ∧ ClaudeChannel.call "testConnection" (.arr [])
        = .error "testConnection requires config argument"
    ∧ ClaudeChannel.call "sendMessage" (.arr [JsValue.obj []])
        = .error "sendMessage requires config and messages arguments"
    ∧ ClaudeChannel.call "fetchModels" (.arr [])
        = .error "Call not found: fetchModels" := by
  have h := claim_C9_bridge_validation "fetchModels" (JsValue.num 3)
    [JsValue.obj []] rfl ⟨by decide, by decide, by decide⟩
  have h2 := claim_C9_bridge_validation "fetchModels" (JsValue.obj [])
    [] rfl ⟨by decide, by decide, by decide⟩
  have h3 := claim_C9_bridge_validation "fetchModels" JsValue.undefined
    [] rfl ⟨by decide, by decide, by decide⟩
  exact ⟨h.1 "testConnection", h2.1 "sendMessage",
    h3.1 "sendStreamingMessage", h.1 "fetchModels", h.2.1,
    h.2.2.1 (by decide), h.2.2.2.2 []⟩

/-! ## Claim C10 — multi-part message round-trip -/

/-- Decoding a base64 digit produced by encoding recovers the 6-bit
value. -/
theorem charSextet_sextetChar : ∀ n < 64, charSextet (sextetChar n) = n := by
  decide

/-- No base64 digit is the padding character. -/
theorem sextetChar_ne_pad : ∀ n < 64, sextetChar n ≠ '=' := by
  decide

/-- Base64 decoding is a left inverse of base64 encoding on byte
sequences (all values `< 256`). -/
theorem base64DecodeList_encodeList (bytes : List Nat)
    (h : ∀ b ∈ bytes, b < 256) :
    base64DecodeList (base64EncodeList bytes) = bytes := by
  induction bytes using base64EncodeList.induct with
  | case1 => rfl
  | case2 a =>
    have ha : a < 256 := h a (by simp)
    simp only [base64EncodeList, base64DecodeList, if_true,
      charSextet_sextetChar _ (by omega : a / 4 < 64),
      charSextet_sextetChar _ (by omega : a % 4 * 16 < 64),
      List.cons.injEq, and_true]
    omega
  | case3 a b =>
    have ha : a < 256 := h a (by simp)
    have hb : b < 256 := h b (by simp)
    have h2 : sextetChar (b % 16 * 4) ≠ '=' := sextetChar_ne_pad _ (by omega)
    simp only [base64EncodeList, base64DecodeList, if_neg h2, if_true,
      charSextet_sextetChar _ (by omega : a / 4 < 64),
      charSextet_sextetChar _ (by omega : a % 4 * 16 + b / 16 < 64),
      charSextet_sextetChar _ (by omega : b % 16 * 4 < 64),
      List.cons.injEq, and_true]
    constructor <;> omega
  | case4 a b c rest ih =>
    have ha : a < 256 := h a (by simp)
    have hb : b < 256 := h b (by simp)
    have hc : c < 256 := h c (by simp)
    have hrest : ∀ x ∈ rest, x < 256 := fun x hx => h x (by simp [hx])
    have h2 : sextetChar (b % 16 * 4 + c / 64) ≠ '=' :=
      sextetChar_ne_pad _ (by omega)
    have h3 : sextetChar (c % 64) ≠ '=' := sextetChar_ne_pad _ (by omega)
    simp only [base64EncodeList, base64DecodeList, if_neg h2, if_neg h3,
      charSextet_sextetChar _ (by omega : a / 4 < 64),
      charSextet_sextetChar _ (by omega : a % 4 * 16 + b / 16 < 64),
      charSextet_sextetChar _ (by omega : b % 16 * 4 + c / 64 < 64),
      charSextet_sextetChar _ (by omega : c % 64 < 64),
      ih hrest, List.cons.injEq, and_true]
    refine ⟨by omega, by omega, by omega⟩

/-- Claim C10: encoding a host chat message containing one text part and
one image part (raw bytes plus MIME type) into the wire Message shape —
which base64-encodes the image bytes — and then decoding the wire request
back preserves the text content and the image part's MIME type and byte
payload exactly, for any role and any byte payload. -/
theorem claim_C10_roundtrip (role : ChatMessageRole) (text mime : String)
    (bytes : List Nat) (hbytes : ∀ b ∈ bytes, b < 256) :
    (ClaudeLanguageModelProvider.convertMessagesToClaude
        [{ role := role,
           content := [ChatPart.text text,
                       ChatPart.imageUrl bytes mime] }]).map
      (fun wireMsg =>
        ClaudeLanguageModelProvider.decodeWireContent wireMsg.content)
      = [[ChatPart.text text, ChatPart.imageUrl bytes mime]] := by
  simp only [ClaudeLanguageModelProvider.convertMessagesToClaude,
    ClaudeLanguageModelProvider.convertPart, List.map_cons, List.map_nil,
    ClaudeLanguageModelProvider.decodeWireContent,
    ClaudeLanguageModelProvider.decodeWirePart]
  rw [show base64Decode (base64Encode bytes) = bytes by
    simp only [base64Decode, base64Encode]
    rw [show (String.mk (base64EncodeList bytes)).toList
        = base64EncodeList bytes from rfl]
    exact base64DecodeList_encodeList bytes hbytes]

/-- Witness for C10: the text `"What is this?"` together with a PNG header
byte payload and MIME type `"image/png"` survive the encode/decode
round-trip. -/
theorem claim_C10_witness :
    (ClaudeLanguageModelProvider.convertMessagesToClaude
        [{ role := ChatMessageRole.User,
           content := [ChatPart.text "What is this?",
                       ChatPart.imageUrl [137, 80, 78, 71, 13] "image/png"] }]).map
      (fun wireMsg =>
        ClaudeLanguageModelProvider.decodeWireContent wireMsg.content)
      = [[ChatPart.text "What is this?",
          ChatPart.imageUrl [137, 80, 78, 71, 13] "image/png"]] :=
  claim_C10_roundtrip ChatMessageRole.User "What is this?" "image/png"
    [137, 80, 78, 71, 13] (by decide)
